import Mathlib

/-!
Shallow embedding of the Maso Project backend (`main.py`, `schemas.py`):
a CRUD service over orders, tasks, attachments and invoices backed by a
document database.  Pure request handlers are modelled as Lean functions;
the document store is passed explicitly as a list of documents; fallible
paths return `Except` / `Option`.  Numeric request fields are modelled
over `ℚ` with an exact round-to-2-decimals function.
-/

/-- A BSON-style value as it appears in stored documents. -/
inductive Value where
  | s (v : String)
  | i (v : Int)
  | oid (v : String)
deriving DecidableEq, Repr

/-- A stored document: an association list of field name to value
(Python dict with unique keys). -/
abbrev Doc := List (String × Value)

/-- First-match association-list lookup, mirroring Python `dict` access. -/
def lookupKey (k : String) : Doc → Option Value
  | [] => none
  | p :: ps => if p.1 = k then some p.2 else lookupKey k ps

/-- Python `str()` of a stored value; for an ObjectId this is its hex string. -/
def strOfValue : Value → String
  | .s v => v
  | .i v => toString v
  | .oid v => v

/-- Python truthiness of an `Optional[str]`: `None` and `""` are falsy. -/
def truthy : Option String → Bool
  | none => false
  | some s => s ≠ ""

/-- `bson.ObjectId` accepts a string iff it is 24 hexadecimal characters. -/
def isValidObjectId (s : String) : Bool :=
  s.length = 24 && s.toList.all (fun c => c.isDigit || ('a' ≤ c && c ≤ 'f') || ('A' ≤ c && c ≤ 'F'))

/-- `main.to_object_id`: parse a path id, HTTP 400 on malformed input. -/
def to_object_id (s : String) : Except Nat String :=
  if isValidObjectId s then .ok s else .error 400

/-! Invoices: `schemas.Invoice` and `main.create_invoice`. -/

/-- `schemas.InvoiceItem` (validation: quantity ≥ 1, unit_price ≥ 0). -/
structure InvoiceItem where
  description : String
  quantity : Nat
  unit_price : ℚ
deriving DecidableEq, Repr

/-- `schemas.Invoice` request body / stored payload. -/
structure Invoice where
  order_id : String
  items : List InvoiceItem
  subtotal : ℚ
  tax_rate : ℚ
  total : ℚ
  notes : Option String
deriving DecidableEq, Repr

/-- Python `round(x, 2)` idealised over `ℚ`: round to the nearest multiple
of 1/100. -/
def round2 (q : ℚ) : ℚ := ((round (q * 100) : ℤ) : ℚ) / 100

/-- `main.create_invoice`: recompute subtotal and total from the items and
tax rate, overwrite them in the persisted payload, and return
`(subtotal, total)` as the response body (alongside the storage id).
Result: (persisted document, response). -/
def create_invoice (inv : Invoice) : Invoice × (ℚ × ℚ) :=
  let subtotal := (inv.items.map (fun i => (i.quantity : ℚ) * i.unit_price)).sum
  let total := subtotal * (1 + inv.tax_rate)
  let payload := { inv with subtotal := round2 subtotal, total := round2 total }
  (payload, (payload.subtotal, payload.total))

/-! Tasks: `schemas.Task` and `main.update_task_status`. -/

/-- The enumerated `Task.status` values of `schemas.Task`. -/
def allowedTaskStatuses : List String :=
  ["queued", "assigned", "in_progress", "paused", "done", "rejected"]

/-- Pydantic validation of the `status` field on Task creation:
a value outside the `Literal` set is rejected. -/
def taskStatusAccepted (status : String) : Bool :=
  allowedTaskStatuses.contains status

/-- A stored task document (`schemas.Task` plus the storage `_id` and the
update timestamp). -/
structure TaskDoc where
  oid : String
  order_id : String
  name : String
  machine_id : Option String
  group : Option String
  assignee : Option String
  status : String
  estimated_minutes : Option Nat
  actual_minutes : Option Nat
  notes : Option String
  updated_at : Nat
deriving DecidableEq, Repr

/-- `main.StatusUpdate` request body: a plain string status and optional notes. -/
structure StatusUpdate where
  status : String
  notes : Option String
deriving DecidableEq, Repr

/-- The `$set` document built by `update_task_status`: always sets `status`
and `updated_at`; sets `notes` only when the supplied value is truthy
(non-`None` and non-empty). -/
def applySet (p : StatusUpdate) (now : Nat) (t : TaskDoc) : TaskDoc :=
  let t1 := { t with status := p.status, updated_at := now }
  if truthy p.notes then { t1 with notes := p.notes } else t1

/-- Mongo `update_one` on the task collection: apply `f` to the first
document whose `_id` matches, returning the new collection and
`matched_count`. -/
def update_one_task (id : String) (f : TaskDoc → TaskDoc) : List TaskDoc → List TaskDoc × Nat
  | [] => ([], 0)
  | t :: ts =>
    if t.oid = id then (f t :: ts, 1)
    else
      let r := update_one_task id f ts
      (t :: r.1, r.2)

/-- Outcome of a `PATCH /api/tasks/{task_id}/status` call: the HTTP result
(`ok` carries the `{ok: true}` body, `error` an HTTP status code), the
task collection afterwards, and the number of storage operations issued. -/
structure UpdateOutcome where
  result : Except Nat Bool
  db : List TaskDoc
  storageOps : Nat
deriving Repr

/-- `main.update_task_status`: 500 when the database handle is absent,
400 on a malformed id (before any storage call), otherwise one
`update_one` storage call; 404 when it matched nothing. -/
def update_task_status (dbAvailable : Bool) (task_id : String) (payload : StatusUpdate)
    (now : Nat) (db : List TaskDoc) : UpdateOutcome :=
  if ¬ dbAvailable then ⟨.error 500, db, 0⟩
  else
    match to_object_id task_id with
    | .error c => ⟨.error c, db, 0⟩
    | .ok oid =>
      let r := update_one_task oid (applySet payload now) db
      if r.2 = 0 then ⟨.error 404, r.1, 1⟩ else ⟨.ok true, r.1, 1⟩

/-! List endpoints: `main.list_orders`, `list_tasks`, `list_attachments`, `list_invoices`. -/

/-- Whether a document matches an exact-match filter on every listed field. -/
def matchesFilter (fd : Doc) (d : Doc) : Bool :=
  fd.all (fun kv => lookupKey kv.1 d = some kv.2)

/-- Modelled from the spec: `database.get_documents` (the `database` module
is imported by `main.py` but absent from the sources).  Per §4.2, it
returns up to `limit` records of the collection matching an exact-match
filter; an empty filter matches all. -/
def get_documents (docs : List Doc) (fd : Doc) (limit : Nat) : List Doc :=
  (docs.filter (matchesFilter fd)).take limit

/-- Response shaping of one document, `d["id"] = str(d.pop("_id"))`:
remove the `_id` entry and append `id` bound to its string form. -/
def shapeWith (d : Doc) (v : Value) : Doc :=
  d.filter (fun p => !(p.1 = "_id" : Bool)) ++ [("id", Value.s (strOfValue v))]

/-- The shaping loop of the list handlers; `none` models the `KeyError`
raised when a document lacks `_id`. -/
def shapeDocs : List Doc → Option (List Doc)
  | [] => some []
  | d :: ds =>
    match lookupKey "_id" d with
    | none => none
    | some v => (shapeDocs ds).map (fun rest => shapeWith d v :: rest)

/-- One optional-filter entry of `filter_dict`, added only when the query
parameter is truthy (present and non-empty). -/
def filterEntry (k : String) (v : Option String) : Doc :=
  match v with
  | none => []
  | some s => if s = "" then [] else [(k, Value.s s)]

/-- `main.list_orders` (no filter parameters, default limit 50). -/
def list_orders (limit : Nat) (docs : List Doc) : Option (List Doc) :=
  shapeDocs (get_documents docs [] limit)

/-- `main.list_tasks`: optional `order_id` and `status` exact filters. -/
def list_tasks (order_id status : Option String) (limit : Nat) (docs : List Doc) :
    Option (List Doc) :=
  shapeDocs (get_documents docs (filterEntry "order_id" order_id ++ filterEntry "status" status) limit)

/-- `main.list_attachments`: optional `order_id` exact filter. -/
def list_attachments (order_id : Option String) (limit : Nat) (docs : List Doc) :
    Option (List Doc) :=
  shapeDocs (get_documents docs (filterEntry "order_id" order_id) limit)

/-- `main.list_invoices`: optional `order_id` exact filter. -/
def list_invoices (order_id : Option String) (limit : Nat) (docs : List Doc) :
    Option (List Doc) :=
  shapeDocs (get_documents docs (filterEntry "order_id" order_id) limit)

/-! Diagnostic endpoint: `main.test_database`. -/

/-- Environment the `/test` handler observes: whether the global `db`
handle is non-`None`, its reported name, the outcome of
`list_collection_names` (which may raise, carrying `str(e)`), and
truthiness of the `DATABASE_URL` / `DATABASE_NAME` environment variables. -/
structure DiagEnv where
  dbAvailable : Bool
  dbName : Option String
  listCollections : Except String (List String)
  envDatabaseUrl : Bool
  envDatabaseName : Bool

/-- The `/test` response object. -/
structure DiagResponse where
  backend : String
  database : String
  database_url : Option String
  database_name : Option String
  connection_status : String
  collections : List String
deriving Repr

/-- `"✅ Set"` / `"❌ Not Set"` for an environment flag. -/
def envFlag (b : Bool) : String := if b then "✅ Set" else "❌ Not Set"

/-- `main.test_database`: builds the diagnostic response, degrading the
`database` field to an informative string when `list_collection_names`
errors, truncating collections to 10, and always overwriting the two env
flags at the end.  Total: it never fails the request. -/
def test_database (e : DiagEnv) : DiagResponse :=
  let base : DiagResponse :=
    { backend := "✅ Running", database := "❌ Not Available", database_url := none,
      database_name := none, connection_status := "Not Connected", collections := [] }
  let r :=
    if e.dbAvailable then
      let r1 :=
        { base with
          database := "✅ Available",
          database_url := some (envFlag e.envDatabaseUrl),
          database_name := some ((e.dbName).getD "✅ Connected"),
          connection_status := "Connected" }
      match e.listCollections with
      | .ok cols =>
        { r1 with collections := cols.take 10, database := "✅ Connected & Working" }
      | .error msg =>
        { r1 with database := "⚠️  Connected but Error: " ++ msg.take 50 }
    else
      { base with database := "⚠️  Available but not initialized" }
  { r with
    database_url := some (envFlag e.envDatabaseUrl),
    database_name := some (envFlag e.envDatabaseName) }

/-! Helper lemmas. -/

/-- The sum recomputed by `create_invoice` from the invoice items. -/
def itemsSum (items : List InvoiceItem) : ℚ :=
  (items.map (fun i => (i.quantity : ℚ) * i.unit_price)).sum

theorem lookupKey_append_left {k : String} {l1 l2 : Doc} {v : Value}
    (h : lookupKey k l1 = some v) : lookupKey k (l1 ++ l2) = some v := by
  induction l1 with
  | nil => simp [lookupKey] at h
  | cons p ps ih =>
    by_cases hp : p.1 = k
    · simpa [lookupKey, hp] using h
    · simp [lookupKey, hp] at h ⊢
      exact ih h

theorem lookupKey_append_of_none {k : String} {l1 l2 : Doc}
    (h : lookupKey k l1 = none) : lookupKey k (l1 ++ l2) = lookupKey k l2 := by
  induction l1 with
  | nil => simp
  | cons p ps ih =>
    by_cases hp : p.1 = k
    · simp [lookupKey, hp] at h
    · simp [lookupKey, hp] at h ⊢
      exact ih h

theorem lookupKey_eq_none_iff {k : String} {l : Doc} :
    lookupKey k l = none ↔ ∀ p ∈ l, p.1 ≠ k := by
  induction l with
  | nil => simp [lookupKey]
  | cons p ps ih =>
    by_cases hp : p.1 = k
    · simp [lookupKey, hp]
    · simp [lookupKey, hp, ih]

theorem lookupKey_filter_ne {k q : String} {l : Doc} (h : k ≠ q) :
    lookupKey k (l.filter fun p => !(p.1 = q : Bool)) = lookupKey k l := by
  induction l with
  | nil => rfl
  | cons p ps ih =>
    rw [List.filter_cons]
    by_cases hq : p.1 = q
    · have hp : p.1 ≠ k := fun hk => h (hk ▸ hq)
      rw [if_neg (by simp [hq])]
      simp only [lookupKey]
      rw [ih, if_neg hp]
    · rw [if_pos (by simp [hq])]
      simp only [lookupKey]
      by_cases hp : p.1 = k
      · rw [if_pos hp, if_pos hp]
      · rw [if_neg hp, if_neg hp, ih]

theorem lookupKey_shapeWith_ne {k : String} {d : Doc} {v : Value}
    (h1 : k ≠ "_id") (h2 : lookupKey k d = some w) :
    lookupKey k (shapeWith d v) = some w := by
  unfold shapeWith
  exact lookupKey_append_left (by rw [lookupKey_filter_ne h1]; exact h2)

theorem lookupKey_id_shapeWith {d : Doc} {v : Value}
    (h : lookupKey "id" d = none) :
    lookupKey "id" (shapeWith d v) = some (Value.s (strOfValue v)) := by
  unfold shapeWith
  have hf : lookupKey "id" (d.filter fun p => !(p.1 = "_id" : Bool)) = none := by
    rw [lookupKey_eq_none_iff] at h ⊢
    exact fun p hp => h p (List.mem_of_mem_filter hp)
  rw [lookupKey_append_of_none hf]
  simp [lookupKey]

theorem lookupKey_oid_shapeWith {d : Doc} {v : Value} :
    lookupKey "_id" (shapeWith d v) = none := by
  unfold shapeWith
  have hf : lookupKey "_id" (d.filter fun p => !(p.1 = "_id" : Bool)) = none := by
    rw [lookupKey_eq_none_iff]
    intro p hp
    have := List.of_mem_filter hp
    simpa using this
  rw [lookupKey_append_of_none hf]
  simp [lookupKey]

theorem shapeDocs_mem {ds out : List Doc} (h : shapeDocs ds = some out) {d' : Doc}
    (hd : d' ∈ out) :
    ∃ d v, d ∈ ds ∧ lookupKey "_id" d = some v ∧ d' = shapeWith d v := by
  induction ds generalizing out with
  | nil =>
    simp [shapeDocs] at h
    subst h
    simp at hd
  | cons d ds ih =>
    unfold shapeDocs at h
    cases hl : lookupKey "_id" d with
    | none => rw [hl] at h; simp at h
    | some v =>
      rw [hl] at h
      cases hs : shapeDocs ds with
      | none => rw [hs] at h; simp at h
      | some rest =>
        rw [hs] at h
        simp at h
        rcases List.mem_cons.mp (h ▸ hd) with hd1 | hd1
        · exact ⟨d, v, by simp, hl, hd1⟩
        · rcases ih hs hd1 with ⟨d0, v0, hm, hl0, he⟩
          exact ⟨d0, v0, by simp [hm], hl0, he⟩

theorem shapeDocs_length {ds out : List Doc} (h : shapeDocs ds = some out) :
    out.length = ds.length := by
  induction ds generalizing out with
  | nil => simp [shapeDocs] at h; simp [h.symm]
  | cons d ds ih =>
    unfold shapeDocs at h
    cases hl : lookupKey "_id" d with
    | none => rw [hl] at h; simp at h
    | some v =>
      rw [hl] at h
      cases hs : shapeDocs ds with
      | none => rw [hs] at h; simp at h
      | some rest =>
        rw [hs] at h
        simp at h
        subst h
        simp [ih hs]

theorem update_one_task_no_match {id : String} {f : TaskDoc → TaskDoc}
    {db : List TaskDoc} (h : ∀ t ∈ db, t.oid ≠ id) :
    update_one_task id f db = (db, 0) := by
  induction db with
  | nil => rfl
  | cons t ts ih =>
    have ht : t.oid ≠ id := h t (by simp)
    simp [update_one_task, ht, ih (fun u hu => h u (by simp [hu]))]

theorem update_one_task_match {id : String} {f : TaskDoc → TaskDoc}
    (l1 l2 : List TaskDoc) (t : TaskDoc) (ht : t.oid = id)
    (h1 : ∀ u ∈ l1, u.oid ≠ id) :
    update_one_task id f (l1 ++ t :: l2) = (l1 ++ f t :: l2, 1) := by
  induction l1 with
  | nil => simp [update_one_task, ht]
  | cons u us ih =>
    have hu : u.oid ≠ id := h1 u (by simp)
    simp [update_one_task, hu, ih (fun w hw => h1 w (by simp [hw]))]

theorem applySet_frame (p : StatusUpdate) (now : Nat) (t : TaskDoc) :
    (applySet p now t).oid = t.oid
    ∧ (applySet p now t).order_id = t.order_id
    ∧ (applySet p now t).name = t.name
    ∧ (applySet p now t).machine_id = t.machine_id
    ∧ (applySet p now t).group = t.group
    ∧ (applySet p now t).assignee = t.assignee
    ∧ (applySet p now t).estimated_minutes = t.estimated_minutes
    ∧ (applySet p now t).actual_minutes = t.actual_minutes := by
  unfold applySet
  split <;> simp

/-! Claims. -/

/-- C1: for every Invoice creation, the persisted and returned subtotal is
the sum over items of quantity × unit_price rounded to 2 decimals, and the
returned (and persisted) total is that sum times (1 + tax_rate) rounded to
2 decimals; in particular items = [(Cut, 3, 10.0)] with tax_rate 0.1
yields subtotal 30.0 and total 33.0. -/
theorem invoice_totals_spec :
    (∀ inv : Invoice,
      (create_invoice inv).1.subtotal = round2 (itemsSum inv.items)
      ∧ (create_invoice inv).2.1 = round2 (itemsSum inv.items)
      ∧ (create_invoice inv).1.total = round2 (itemsSum inv.items * (1 + inv.tax_rate))
      ∧ (create_invoice inv).2.2 = round2 (itemsSum inv.items * (1 + inv.tax_rate)))
    ∧ (create_invoice ⟨"o1", [⟨"Cut", 3, 10⟩], 0, 1/10, 0, none⟩).2 = (30, 33) := by
  constructor
  · exact fun inv => ⟨rfl, rfl, rfl, rfl⟩
  · show (round2 ((3 : ℚ) * 10 + 0), round2 (((3 : ℚ) * 10 + 0) * (1 + 1 / 10))) = (30, 33)
    norm_num [round2]

/-- C2: two Invoice creations agreeing on items and tax_rate produce
identical stored and returned subtotal and total, whatever client-supplied
subtotal/total they carry. -/
theorem invoice_totals_client_independent (inv1 inv2 : Invoice)
    (hitems : inv1.items = inv2.items) (htax : inv1.tax_rate = inv2.tax_rate) :
    (create_invoice inv1).1.subtotal = (create_invoice inv2).1.subtotal
    ∧ (create_invoice inv1).1.total = (create_invoice inv2).1.total
    ∧ (create_invoice inv1).2 = (create_invoice inv2).2 := by
  simp [create_invoice, hitems, htax]

/-- C2 witness: concrete invoices differing only in client-supplied
subtotal and total get identical computed results. -/
theorem invoice_totals_client_independent_witness :
    (create_invoice ⟨"o1", [⟨"Cut", 3, 10⟩], 5, 1/10, 7, none⟩).2
      = (create_invoice ⟨"o1", [⟨"Cut", 3, 10⟩], 0, 1/10, 999, none⟩).2 :=
  (invoice_totals_client_independent _ _ rfl rfl).2.2

/-- C3 counterexample: with the database available, a structurally valid
but unknown task id yields HTTP 404 only after a storage operation has
been issued — the not-found failure does not occur before touching
storage. -/
theorem update_status_notfound_touches_storage :
    (update_task_status true "aaaaaaaaaaaaaaaaaaaaaaaa" ⟨"done", none⟩ 0 []).result
        = .error 404
    ∧ (update_task_status true "aaaaaaaaaaaaaaaaaaaaaaaa" ⟨"done", none⟩ 0 []).storageOps
        ≠ 0 := by
  constructor
  · rfl
  · decide

/-- C3 (amended): a malformed task id fails with HTTP 400 before any
storage operation and leaves storage unchanged; a valid id matching no
record fails with HTTP 404 after exactly one storage operation (the
update call itself), also leaving storage unchanged. -/
theorem update_status_error_paths (task_id : String) (payload : StatusUpdate)
    (now : Nat) (db : List TaskDoc) :
    (¬ isValidObjectId task_id →
      update_task_status true task_id payload now db = ⟨.error 400, db, 0⟩)
    ∧ (isValidObjectId task_id → (∀ t ∈ db, t.oid ≠ task_id) →
      update_task_status true task_id payload now db = ⟨.error 404, db, 1⟩) := by
  constructor
  · intro h
    simp [update_task_status, to_object_id, h]
  · intro hv hn
    simp [update_task_status, to_object_id, hv, update_one_task_no_match hn]

/-- C3 witness for the amended statement: a malformed id and a valid
unknown id on an empty store. -/
theorem update_status_error_paths_witness :
    update_task_status true "zzz" ⟨"done", none⟩ 0 [] = ⟨.error 400, [], 0⟩
    ∧ update_task_status true "aaaaaaaaaaaaaaaaaaaaaaab" ⟨"done", none⟩ 0 []
        = ⟨.error 404, [], 1⟩ :=
  ⟨(update_status_error_paths "zzz" ⟨"done", none⟩ 0 []).1 (by decide),
   (update_status_error_paths "aaaaaaaaaaaaaaaaaaaaaaab" ⟨"done", none⟩ 0 []).2
     (by decide) (by simp)⟩

/-- C4: a successful status update returns ok, creates no record (the
collection keeps its length), rewrites only status, notes and updated_at
on the first matched record, and leaves every other field of that record
and every other record unchanged. -/
theorem update_status_frame (task_id : String) (payload : StatusUpdate) (now : Nat)
    (l1 l2 : List TaskDoc) (t : TaskDoc)
    (hv : isValidObjectId task_id) (ht : t.oid = task_id)
    (hfirst : ∀ u ∈ l1, u.oid ≠ task_id) :
    (update_task_status true task_id payload now (l1 ++ t :: l2)).result = .ok true
    ∧ (update_task_status true task_id payload now (l1 ++ t :: l2)).db
        = l1 ++ applySet payload now t :: l2
    ∧ (update_task_status true task_id payload now (l1 ++ t :: l2)).db.length
        = (l1 ++ t :: l2).length
    ∧ (applySet payload now t).oid = t.oid
    ∧ (applySet payload now t).order_id = t.order_id
    ∧ (applySet payload now t).name = t.name
    ∧ (applySet payload now t).machine_id = t.machine_id
    ∧ (applySet payload now t).group = t.group
    ∧ (applySet payload now t).assignee = t.assignee
    ∧ (applySet payload now t).estimated_minutes = t.estimated_minutes
    ∧ (applySet payload now t).actual_minutes = t.actual_minutes := by
  have hu := update_one_task_match (f := applySet payload now) l1 l2 t ht hfirst
  have hfr := applySet_frame payload now t
  refine ⟨?_, ?_, ?_, hfr.1, hfr.2.1, hfr.2.2.1, hfr.2.2.2.1, hfr.2.2.2.2.1,
    hfr.2.2.2.2.2.1, hfr.2.2.2.2.2.2.1, hfr.2.2.2.2.2.2.2⟩
  · simp [update_task_status, to_object_id, hv, hu]
  · simp [update_task_status, to_object_id, hv, hu]
  · simp [update_task_status, to_object_id, hv, hu]

/-- C4 witness: concrete successful update of the only stored task. -/
theorem update_status_frame_witness :
    (update_task_status true "aaaaaaaaaaaaaaaaaaaaaaaa" ⟨"paused", none⟩ 5
      ([] ++ ⟨"aaaaaaaaaaaaaaaaaaaaaaaa", "o1", "Laser Cut", none, none, none,
        "queued", none, none, none, 0⟩ :: [])).result = .ok true :=
  (update_status_frame "aaaaaaaaaaaaaaaaaaaaaaaa" ⟨"paused", none⟩ 5 [] []
    ⟨"aaaaaaaaaaaaaaaaaaaaaaaa", "o1", "Laser Cut", none, none, none,
      "queued", none, none, none, 0⟩ (by decide) rfl (by simp)).1

/-- C5: Task creation rejects a status outside the enumerated set, but the
status-update endpoint (whose `StatusUpdate.status` is an unvalidated
string) accepts any value: updating an existing queued task with status
"bogus" succeeds and stores a status outside the allowed set, so the
claimed invariant is broken by the update endpoint. -/
theorem update_status_escapes_allowed_set :
    taskStatusAccepted "bogus" = false
    ∧ (update_task_status true "aaaaaaaaaaaaaaaaaaaaaaaa" ⟨"bogus", none⟩ 1
        [⟨"aaaaaaaaaaaaaaaaaaaaaaaa", "o1", "Cut", none, none, none,
          "queued", none, none, none, 0⟩]).result = .ok true
    ∧ (update_task_status true "aaaaaaaaaaaaaaaaaaaaaaaa" ⟨"bogus", none⟩ 1
        [⟨"aaaaaaaaaaaaaaaaaaaaaaaa", "o1", "Cut", none, none, none,
          "queued", none, none, none, 0⟩]).db.map TaskDoc.status = ["bogus"]
    ∧ "bogus" ∉ allowedTaskStatuses := by
  refine ⟨by decide, rfl, rfl, by decide⟩

/-- C10: on a successful update, the stored notes field is written only
when the supplied notes value is a non-empty string; an omitted or
empty-string notes leaves the record's notes unchanged. -/
theorem update_status_notes_conditional (task_id : String) (payload : StatusUpdate)
    (now : Nat) (l1 l2 : List TaskDoc) (t : TaskDoc)
    (hv : isValidObjectId task_id) (ht : t.oid = task_id)
    (hfirst : ∀ u ∈ l1, u.oid ≠ task_id) :
    ((payload.notes = none ∨ payload.notes = some "") →
      (update_task_status true task_id payload now (l1 ++ t :: l2)).db
        = l1 ++ { t with status := payload.status, updated_at := now } :: l2)
    ∧ (∀ s, payload.notes = some s → s ≠ "" →
      (update_task_status true task_id payload now (l1 ++ t :: l2)).db
        = l1 ++ { t with status := payload.status, updated_at := now, notes := some s } :: l2) := by
  have hu := update_one_task_match (f := applySet payload now) l1 l2 t ht hfirst
  constructor
  · rintro (h | h) <;>
      simp [update_task_status, to_object_id, hv, hu, applySet, truthy, h]
  · intro s hs hne
    simp [update_task_status, to_object_id, hv, hu, applySet, truthy, hs, hne]

/-- C10 witness: updating with omitted notes leaves notes unchanged, and
with non-empty notes writes them. -/
theorem update_status_notes_conditional_witness :
    (update_task_status true "aaaaaaaaaaaaaaaaaaaaaaaa" ⟨"done", none⟩ 7
      ([] ++ ⟨"aaaaaaaaaaaaaaaaaaaaaaaa", "o1", "Cut", none, none, none,
        "queued", none, none, some "keep", 0⟩ :: [])).db
      = [] ++ ⟨"aaaaaaaaaaaaaaaaaaaaaaaa", "o1", "Cut", none, none, none,
        "done", none, none, some "keep", 7⟩ :: []
    ∧ (update_task_status true "aaaaaaaaaaaaaaaaaaaaaaaa" ⟨"done", some "new"⟩ 7
      ([] ++ ⟨"aaaaaaaaaaaaaaaaaaaaaaaa", "o1", "Cut", none, none, none,
        "queued", none, none, some "keep", 0⟩ :: [])).db
      = [] ++ ⟨"aaaaaaaaaaaaaaaaaaaaaaaa", "o1", "Cut", none, none, none,
        "done", none, none, some "new", 7⟩ :: [] :=
  ⟨(update_status_notes_conditional "aaaaaaaaaaaaaaaaaaaaaaaa" ⟨"done", none⟩ 7 [] []
      ⟨"aaaaaaaaaaaaaaaaaaaaaaaa", "o1", "Cut", none, none, none,
        "queued", none, none, some "keep", 0⟩ (by decide) rfl (by simp)).1
      (Or.inl rfl),
   (update_status_notes_conditional "aaaaaaaaaaaaaaaaaaaaaaaa" ⟨"done", some "new"⟩ 7 [] []
      ⟨"aaaaaaaaaaaaaaaaaaaaaaaa", "o1", "Cut", none, none, none,
        "queued", none, none, some "keep", 0⟩ (by decide) rfl (by simp)).2
      "new" rfl (by decide)⟩

/-- Records returned by `get_documents` come from the collection and
satisfy the exact-match filter. -/
theorem mem_get_documents {docs : List Doc} {fd : Doc} {limit : Nat} {d : Doc}
    (h : d ∈ get_documents docs fd limit) : d ∈ docs ∧ matchesFilter fd d := by
  unfold get_documents at h
  have h1 : d ∈ docs.filter (matchesFilter fd) := List.take_subset _ _ h
  exact ⟨List.mem_of_mem_filter h1, List.of_mem_filter h1⟩

/-- A filter matched by no record makes `get_documents` return `[]`. -/
theorem get_documents_no_match {docs : List Doc} {fd : Doc} {limit : Nat}
    (h : ∀ d ∈ docs, matchesFilter fd d = false) :
    get_documents docs fd limit = [] := by
  unfold get_documents
  have : docs.filter (matchesFilter fd) = [] := by
    rw [List.filter_eq_nil_iff]
    intro a ha
    simp [h a ha]
  rw [this]
  simp

/-- The empty filter matches everything: `get_documents` takes a prefix. -/
theorem get_documents_nil_filter (docs : List Doc) (limit : Nat) :
    get_documents docs [] limit = docs.take limit := by
  unfold get_documents
  congr 1
  apply List.filter_eq_self.mpr
  intro a _
  rfl

/-- Records in a shaped output carry `id` (stringified `_id`) and no `_id`. -/
theorem shaped_output_ids {docs sub out : List Doc}
    (hsub : ∀ d ∈ sub, d ∈ docs) (h : shapeDocs sub = some out)
    (hid : ∀ d ∈ docs, lookupKey "id" d = none) {d' : Doc} (hd : d' ∈ out) :
    lookupKey "_id" d' = none
    ∧ ∃ d v, d ∈ docs ∧ lookupKey "_id" d = some v
        ∧ lookupKey "id" d' = some (.s (strOfValue v)) := by
  rcases shapeDocs_mem h hd with ⟨d, v, hm, hl, he⟩
  subst he
  exact ⟨lookupKey_oid_shapeWith,
    d, v, hsub d hm, hl, lookupKey_id_shapeWith (hid d (hsub d hm))⟩

/-- C6: list endpoints: records returned under a supplied (truthy) filter
match it exactly on every filtered field; with no filter supplied the
unfiltered take-limit prefix is shaped and returned (hence at most
`limit` records); and a filter matching no record yields `some []`, the
empty list with HTTP 200, not an error. -/
theorem list_endpoints_filtering (docs : List Doc) (limit : Nat) (ov st : String)
    (out : List Doc) :
    (ov ≠ "" → st ≠ "" → list_tasks (some ov) (some st) limit docs = some out →
      ∀ d' ∈ out, lookupKey "order_id" d' = some (.s ov)
        ∧ lookupKey "status" d' = some (.s st))
    ∧ (ov ≠ "" → list_attachments (some ov) limit docs = some out →
      ∀ d' ∈ out, lookupKey "order_id" d' = some (.s ov))
    ∧ (ov ≠ "" → list_invoices (some ov) limit docs = some out →
      ∀ d' ∈ out, lookupKey "order_id" d' = some (.s ov))
    ∧ list_tasks none none limit docs = shapeDocs (docs.take limit)
    ∧ list_orders limit docs = shapeDocs (docs.take limit)
    ∧ (list_orders limit docs = some out → out.length ≤ limit)
    ∧ (st ≠ "" → (∀ d ∈ docs, lookupKey "status" d ≠ some (.s st)) →
      list_tasks none (some st) limit docs = some []) := by
  refine ⟨?_, ?_, ?_, ?_, ?_, ?_, ?_⟩
  · intro hov hst h d' hd
    rcases shapeDocs_mem h hd with ⟨d, v, hm, _, he⟩
    have hmf := (mem_get_documents hm).2
    simp [filterEntry, hov, hst, matchesFilter] at hmf
    subst he
    exact ⟨lookupKey_shapeWith_ne (by simp) hmf.1,
      lookupKey_shapeWith_ne (by simp) hmf.2⟩
  · intro hov h d' hd
    rcases shapeDocs_mem h hd with ⟨d, v, hm, _, he⟩
    have hmf := (mem_get_documents hm).2
    simp [filterEntry, hov, matchesFilter] at hmf
    subst he
    exact lookupKey_shapeWith_ne (by simp) hmf
  · intro hov h d' hd
    rcases shapeDocs_mem h hd with ⟨d, v, hm, _, he⟩
    have hmf := (mem_get_documents hm).2
    simp [filterEntry, hov, matchesFilter] at hmf
    subst he
    exact lookupKey_shapeWith_ne (by simp) hmf
  · show shapeDocs (get_documents docs ([] ++ []) limit) = shapeDocs (docs.take limit)
    rw [List.nil_append, get_documents_nil_filter]
  · show shapeDocs (get_documents docs [] limit) = shapeDocs (docs.take limit)
    rw [get_documents_nil_filter]
  · intro h
    rw [list_orders, get_documents_nil_filter] at h
    calc out.length = (docs.take limit).length := shapeDocs_length h
      _ ≤ limit := List.length_take_le _ _
  · intro hst hn
    have hmf : ∀ d ∈ docs,
        matchesFilter (filterEntry "order_id" none ++ filterEntry "status" (some st)) d
          = false := by
      intro d hd
      simp [filterEntry, hst, matchesFilter]
      exact hn d hd
    rw [list_tasks, get_documents_no_match hmf]
    rfl

/-- C6 witness: a status filter matching no stored task returns the empty
list rather than an error. -/
theorem list_endpoints_filtering_witness :
    list_tasks none (some "done") 100 [] = some [] :=
  (list_endpoints_filtering [] 100 "o" "done" []).2.2.2.2.2.2
    (by decide) (by simp)

/-- C7: every record returned by any of the four list endpoints exposes
its internal identifier in string form under key `id`, and the `_id`
field is absent from the response. -/
theorem list_endpoints_id_shaping (o s : Option String) (limit : Nat)
    (docs out : List Doc) (hid : ∀ d ∈ docs, lookupKey "id" d = none) :
    (list_tasks o s limit docs = some out →
      ∀ d' ∈ out, lookupKey "_id" d' = none
        ∧ ∃ d v, d ∈ docs ∧ lookupKey "_id" d = some v
            ∧ lookupKey "id" d' = some (.s (strOfValue v)))
    ∧ (list_orders limit docs = some out →
      ∀ d' ∈ out, lookupKey "_id" d' = none
        ∧ ∃ d v, d ∈ docs ∧ lookupKey "_id" d = some v
            ∧ lookupKey "id" d' = some (.s (strOfValue v)))
    ∧ (list_attachments o limit docs = some out →
      ∀ d' ∈ out, lookupKey "_id" d' = none
        ∧ ∃ d v, d ∈ docs ∧ lookupKey "_id" d = some v
            ∧ lookupKey "id" d' = some (.s (strOfValue v)))
    ∧ (list_invoices o limit docs = some out →
      ∀ d' ∈ out, lookupKey "_id" d' = none
        ∧ ∃ d v, d ∈ docs ∧ lookupKey "_id" d = some v
            ∧ lookupKey "id" d' = some (.s (strOfValue v))) := by
  refine ⟨fun h d' hd => ?_, fun h d' hd => ?_, fun h d' hd => ?_, fun h d' hd => ?_⟩
  all_goals
    exact shaped_output_ids (fun d hm => (mem_get_documents hm).1) h hid hd

/-- C7 witness: a concrete stored order document is returned with `id`
set to the identifier string and without `_id`. -/
theorem list_endpoints_id_shaping_witness :
    lookupKey "_id" [("customer", Value.s "ACME"), ("id", Value.s "abc123")] = none
    ∧ ∃ d v, d ∈ [[("_id", Value.oid "abc123"), ("customer", Value.s "ACME")]]
        ∧ lookupKey "_id" d = some v
        ∧ lookupKey "id" [("customer", Value.s "ACME"), ("id", Value.s "abc123")]
            = some (.s (strOfValue v)) :=
  (list_endpoints_id_shaping none none 50
      [[("_id", Value.oid "abc123"), ("customer", Value.s "ACME")]]
      [[("customer", Value.s "ACME"), ("id", Value.s "abc123")]]
      (by decide)).2.1 (by decide)
    [("customer", Value.s "ACME"), ("id", Value.s "abc123")] (by decide)

/-- C8: the diagnostic endpoint always produces a response: at most 10
collection names, env-presence flags for the storage connection string
and storage name, and a degraded informative string in the `database`
field when the collection-listing sub-check errors. -/
theorem test_database_diag (e : DiagEnv) :
    (test_database e).collections.length ≤ 10
    ∧ (test_database e).database_url = some (envFlag e.envDatabaseUrl)
    ∧ (test_database e).database_name = some (envFlag e.envDatabaseName)
    ∧ (∀ msg, e.dbAvailable = true → e.listCollections = .error msg →
      (test_database e).database = "⚠️  Connected but Error: " ++ msg.take 50) := by
  refine ⟨?_, rfl, rfl, ?_⟩
  · rcases e with ⟨db, name, lc, u, n⟩
    cases db <;> cases lc <;>
      simp [test_database, List.length_take_le]
  · intro msg hdb herr
    simp [test_database, hdb, herr]

/-- C8 witness: a failing collection listing degrades the `database`
field to the informative error string. -/
theorem test_database_diag_witness :
    (test_database ⟨true, some "maso", .error "boom", true, false⟩).database
      = "⚠️  Connected but Error: " ++ "boom".take 50 :=
  (test_database_diag ⟨true, some "maso", .error "boom", true, false⟩).2.2.2
    "boom" rfl rfl

/-- C9: an empty-string filter query parameter is treated exactly as an
absent one by the list handlers (Python truthiness of the parameter). -/
theorem empty_string_filter_is_no_filter (order_id status : Option String)
    (limit : Nat) (docs : List Doc) :
    list_tasks (some "") status limit docs = list_tasks none status limit docs
    ∧ list_tasks order_id (some "") limit docs = list_tasks order_id none limit docs
    ∧ list_attachments (some "") limit docs = list_attachments none limit docs
    ∧ list_invoices (some "") limit docs = list_invoices none limit docs := by
  refine ⟨?_, ?_, ?_, ?_⟩ <;>
    simp [list_tasks, list_attachments, list_invoices, filterEntry]
